import Mathlib

/-
Verification of the cells runtime (Tideland Go Library, cells package).

The embedding below translates the core of src/cells/cell.go and the
environment file (NewEnvironment, Request, Stop) into Lean.  Collaborator
packages of the same repository that are not part of the excerpt
(loop, identifier, the payload/event constructors, the registry) are
modelled from the specification; each such definition carries a doc
comment starting with the words Modelled from the spec.
-/

namespace Cells

/-- Error kinds of the cells runtime (errors.go of the package; the kinds
are listed in the spec).  Annotated errors (errors.Annotate) carry the
wrapped inner error. -/
inductive CellError where
  | behaviorError (msg : String)
  | cellInit (id : String) (inner : CellError)
  | duplicateCell (id : String)
  | cellNotFound (id : String)
  | invalidEvent
  | queueFull
  | queueStopped
  | timeout (op : String)
  | eventRecovering (reason : String) (inner : CellError)
  | recoveredTooOften (reason : String)
  | stopped
deriving DecidableEq, Repr

/-- Scenes are never inspected by the runtime; any value type serves. -/
abbrev Scene := Option Nat

/-- A payload value.  A response channel is referenced by a numeric channel
identifier; error values may travel through payloads (the Request reply
path inspects them). -/
inductive PValue where
  | str (s : String)
  | num (n : Int)
  | chan (c : Nat)
  | err (e : CellError)
deriving DecidableEq, Repr

/-- Payload: ordered mapping from string keys to values. -/
abbrev Payload := List (String × PValue)

/-- Reserved default key used when a raw value is wrapped into a payload. -/
def DefaultPayload : String := "default"

/-- Reserved key carrying the one-shot response channel of a request. -/
def ResponseChanPayload : String := "responseChan"

/-- Modelled from the spec: NewPayload takes a seed value; if it is not
already a Payload it is wrapped in a single-entry payload under the
default key (spec 4.1).  The seed is given as a sum: either a payload or
a raw value. -/
def NewPayload : Payload ⊕ PValue → Payload
  | Sum.inl p => p
  | Sum.inr v => [(DefaultPayload, v)]

/-- Modelled from the spec: Payload.Apply returns a payload whose keys are
the union of the receiver keys and the override keys, override values
winning; the receiver is unchanged (spec 4.1). -/
def Payload.Apply (p : Payload) (vs : Payload) : Payload :=
  p.filter (fun kv => Decidable.decide (vs.lookup kv.1 = none)) ++ vs

/-- An event: immutable triple of topic, payload and scene. -/
structure Event where
  topic : String
  payload : Payload
  scene : Scene
deriving DecidableEq, Repr

/-- Modelled from the spec: NewEvent constructs an event and fails with
InvalidEvent when the topic is empty; a non-payload value is wrapped via
NewPayload (spec 4.1). -/
def NewEvent (topic : String) (payload : Payload ⊕ PValue) (scn : Scene) :
    Except CellError Event :=
  if topic = "" then Except.error CellError.invalidEvent
  else Except.ok { topic := topic, payload := NewPayload payload, scene := scn }

/-- Modelled from the spec: a bounded FIFO event queue (spec 4.2).  Push
fails with QueueStopped after Stop and with QueueFull when the buffer is
saturated; otherwise the event is appended. -/
structure EventQueue where
  capacity : Nat
  buffer : List Event
  stopped : Bool
deriving DecidableEq, Repr

/-- Modelled from the spec: the Push operation of the queue contract. -/
def EventQueue.Push (q : EventQueue) (e : Event) : Except CellError EventQueue :=
  if q.stopped then Except.error CellError.queueStopped
  else if q.capacity ≤ q.buffer.length then Except.error CellError.queueFull
  else Except.ok { q with buffer := q.buffer ++ [e] }

/-- The queue-facing state of a cell: its id and its mailbox.  (Subscribers
and the supervised loop are modelled separately, as the backend loop owns
them.) -/
structure CellData where
  id : String
  queue : EventQueue
deriving DecidableEq, Repr

/-- cell.processEvent: push the event into the cell queue; the result is
the queue Push result (cell.go). -/
def CellData.processEvent (c : CellData) (e : Event) : Except CellError CellData :=
  match c.queue.Push e with
  | Except.error err => Except.error err
  | Except.ok q => Except.ok { c with queue := q }

/-- The cell after a push attempt: updated on success, unchanged on
failure.  Used to phrase the fan-out result of Emit. -/
def CellData.afterPush (c : CellData) (e : Event) : CellData :=
  match c.processEvent e with
  | Except.error _ => c
  | Except.ok c2 => c2

/-- cell.Emit: forward the event to every current subscriber in order by
calling its processEvent; return at the first failure (cell.go, Emit).
The result pairs the subscriber list after the fan-out with the error
returned by Emit (none when all pushes succeed). -/
def cellEmit : List CellData → Event → List CellData × Option CellError
  | [], _ => ([], none)
  | c :: rest, e =>
    match c.processEvent e with
    | Except.error err => (c :: rest, some err)
    | Except.ok c2 =>
      let r := cellEmit rest e
      (c2 :: r.1, r.2)

/-- A behavior, given by the results of its four operations (the Behavior
contract of the spec; ProcessEvent and Recover results depend on their
argument).  A result of none stands for a nil error. -/
structure Behavior where
  initResult : Option CellError
  processEventResult : Event → Option CellError
  recoverResult : String → Option CellError
  terminateResult : Option CellError

/-- The three wake-up sources of the backend loop select: a stop signal, a
subscriber update, or a dequeued event (cell.go, backendLoop). -/
inductive LoopMsg where
  | stopSignal
  | subUpdate (subs : List String)
  | event (e : Event)
deriving DecidableEq, Repr

/-- Observable actions of the backend loop, recorded as a trace:
monitoring span begin and end, a behavior ProcessEvent invocation, a Kill
of the loop, and the Terminate call on the stop path. -/
inductive Action where
  | beginMeasuring (id : String)
  | processEvent (e : Event)
  | endMeasuring (id : String)
  | kill (e : CellError)
  | terminate
deriving DecidableEq, Repr

/-- Exit condition of the backend loop after the modelled schedule. -/
inductive LoopExit where
  | running
  | terminated (err : Option CellError)
deriving DecidableEq, Repr

/-- In-loop state: the subscriber list owned by the loop, and the error a
Kill recorded (none while the loop is healthy).  Modelled from the spec:
loop.Kill stores the terminal error and makes the shall-stop signal ready,
so the next select iteration takes the stop branch (spec 4.3). -/
structure LoopState where
  subscribers : List String
  killed : Option CellError
deriving DecidableEq, Repr

/-- cell.backendLoop over a finite schedule of select outcomes.  Each
iteration handles exactly one message: a stop signal returns
behavior.Terminate, a subscriber update replaces the in-memory list, a
dequeued event begins a measuring span and runs behavior.ProcessEvent —
on error the loop is killed with that error, on success the span is
ended.  Once killed, the shall-stop signal is ready and the loop takes
the stop branch before handling anything further (cell.go, backendLoop;
the kill/stop handoff is modelled from the spec, 4.3). -/
def backendLoop (pe : Event → Option CellError) (term : Option CellError)
    (mid : String) : List LoopMsg → LoopState → LoopState × LoopExit × List Action
  | msgs, st =>
    if st.killed.isSome then (st, LoopExit.terminated term, [Action.terminate])
    else
      match msgs with
      | [] => (st, LoopExit.running, [])
      | LoopMsg.stopSignal :: _ => (st, LoopExit.terminated term, [Action.terminate])
      | LoopMsg.subUpdate subs :: rest =>
        backendLoop pe term mid rest { st with subscribers := subs }
      | LoopMsg.event e :: rest =>
        match pe e with
        | some err =>
          let r := backendLoop pe term mid rest { st with killed := some err }
          (r.1, r.2.1,
            Action.beginMeasuring mid :: Action.processEvent e :: Action.kill err :: r.2.2)
        | none =>
          let r := backendLoop pe term mid rest st
          (r.1, r.2.1,
            Action.beginMeasuring mid :: Action.processEvent e ::
              Action.endMeasuring mid :: r.2.2)

/-- A recorded panic occurrence: timestamp (seconds) and reason. -/
structure Recovering where
  time : Nat
  reason : String
deriving DecidableEq, Repr

/-- Modelled from the spec: loop.Recoverings.Frequency holds when the
history records at least num recoverings within the trailing duration,
measured back from the most recent entry (spec 4.4: 12 or more events
within the last minute). -/
def recFrequency (rs : List Recovering) (num dur : Nat) : Bool :=
  match rs.getLast? with
  | none => false
  | some lastR =>
    num ≤ (rs.filter (fun r => lastR.time ≤ r.time + dur)).length

/-- Modelled from the spec: loop.Recoverings.Trim keeps the most recent n
entries of the history (spec 4.4: trimmed to its most recent 12). -/
def recTrim (rs : List Recovering) (n : Nat) : List Recovering :=
  rs.drop (rs.length - n)

/-- Modelled from the spec: loop.Recoverings.Last yields the most recent
recovering; checkRecovering is only invoked with the just-recorded panic
in the history, so the default is never consulted. -/
def recLastReason (rs : List Recovering) : String :=
  (rs.getLastD { time := 0, reason := "" }).reason

/-- cell.checkRecovering: if the history shows 12 or more recoverings in
the last minute, fail with RecoveredTooOften; otherwise hand the last
reason to behavior.Recover — a Recover error becomes a terminal
EventRecovering error — and on success return the history trimmed to its
most recent 12 entries (cell.go, checkRecovering). -/
def checkRecovering (b : Behavior) (rs : List Recovering) :
    Except CellError (List Recovering) :=
  let lastReason := recLastReason rs
  if recFrequency rs 12 60 then
    Except.error (CellError.recoveredTooOften lastReason)
  else
    match b.recoverResult lastReason with
    | some e => Except.error (CellError.eventRecovering lastReason e)
    | none => Except.ok (recTrim rs 12)

/-- Outcome of the supervisor after a caught panic: either the worker is
restarted with a trimmed history, or the loop stops permanently. -/
inductive SupervisorOutcome where
  | restarted (history : List Recovering)
  | stoppedWith (e : CellError)
deriving DecidableEq, Repr

/-- Modelled from the spec: loop.GoRecoverable invokes checkRecovering
after a caught panic; an error stops the loop permanently with that
error, otherwise the worker restarts with the trimmed history
(spec 4.3). -/
def superviseRecover (b : Behavior) (rs : List Recovering) : SupervisorOutcome :=
  match checkRecovering b rs with
  | Except.error e => SupervisorOutcome.stoppedWith e
  | Except.ok rs2 => SupervisorOutcome.restarted rs2

/-- Behavior operations as observable calls, used to trace what newCell
invokes on the behavior. -/
inductive BCall where
  | init
  | processEvent (e : Event)
  | recover (reason : String)
  | terminate
deriving DecidableEq, Repr

/-- newCell (cell.go): create the queue via the environment queue factory
— a factory error is annotated as CellInit — then build the cell and call
behavior.Init; an Init error is annotated as CellInit and no cell is
returned.  The second component traces every behavior call newCell makes.
The factory result is a parameter (the factory itself is configured on
the environment). -/
def newCell (queueResult : Except CellError EventQueue) (id : String)
    (b : Behavior) : Except CellError CellData × List BCall :=
  match queueResult with
  | Except.error e => (Except.error (CellError.cellInit id e), [])
  | Except.ok q =>
    match b.initResult with
    | some e => (Except.error (CellError.cellInit id e), [BCall.init])
    | none => (Except.ok { id := id, queue := q }, [BCall.init])

/-- Modelled from the spec: the registry owns the cells of an environment
as a mapping from id to cell (spec 4.5); only the lookup face is needed
here. -/
structure Registry where
  entries : List (String × CellData)
deriving DecidableEq, Repr

/-- Modelled from the spec: a fresh registry holds no cells. -/
def newRegistry : Registry := { entries := [] }

/-- Modelled from the spec: registry.cells(id) returns the cell under the
id or fails with CellNotFound (spec 4.5). -/
def Registry.findCell (r : Registry) (id : String) : Except CellError CellData :=
  match r.entries.lookup id with
  | none => Except.error (CellError.cellNotFound id)
  | some c => Except.ok c

/-- The monitoring sink attached to an environment: the provided null
implementation or a custom sink. -/
inductive Monitoring where
  | null
  | custom (tag : String)
deriving DecidableEq, Repr

/-- The environment record: id, cell registry, monitoring sink, and
whether the process-teardown finalizer is currently installed
(runtime.SetFinalizer state). -/
structure EnvironmentData where
  id : String
  cells : Registry
  monitor : Monitoring
  finalizerSet : Bool
deriving DecidableEq, Repr

/-- Modelled from the spec: identifier.Identifier builds one identifier by
joining the given parts. -/
def identifierJoin (parts : List String) : String :=
  String.intercalate ":" parts

/-- NewEnvironment (environment file): with no id parts the id is a freshly
generated UUID — the generator is a parameter here — otherwise the join
of the parts; the registry is fresh, monitoring defaults to the null
implementation, and the teardown finalizer is installed. -/
def NewEnvironment (uuid : String) (idParts : List String) : EnvironmentData :=
  { id := if idParts.isEmpty then uuid else identifierJoin idParts
    cells := newRegistry
    monitor := Monitoring.null
    finalizerSet := true }

/-- environment.Emit: look up the cell under the id and push the event
into its queue; a lookup or push error is the result (environment file,
Emit; the push is cell.processEvent). -/
def envEmitEvent (env : EnvironmentData) (id : String) (ev : Event) :
    Option CellError :=
  match env.cells.findCell id with
  | Except.error e => some e
  | Except.ok c =>
    match c.processEvent ev with
    | Except.error e => some e
    | Except.ok _ => none

/-- environment.Stop: clear the teardown finalizer, then stop the registry
and propagate its error (environment file, Stop).  The registry stop
result is a parameter: its internals are outside the excerpt. -/
def envStop (env : EnvironmentData) (registryStopResult : Option CellError) :
    EnvironmentData × Option CellError :=
  let cleared := { env with finalizerSet := false }
  match registryStopResult with
  | some e => (cleared, some e)
  | none => (cleared, none)

/-- Outcome of the select in Request: a value received from the response
channel, or the timer firing first. -/
inductive SelectResult where
  | received (v : PValue)
  | timedOut
deriving DecidableEq, Repr

/-- The select of Request over the single-capacity response channel and
the timeout timer.  The channel content at entry to the select is an
Option (capacity one); a response sent only after entry arrives at a
positive relative time and is received only when that time is within the
timeout; otherwise the timer fires. -/
def selectOutcome (chanAtEntry : Option PValue) (laterSend : Option (Nat × PValue))
    (timeout : Nat) : SelectResult :=
  match chanAtEntry with
  | some v => SelectResult.received v
  | none =>
    match laterSend with
    | some (t, v) =>
      if t ≤ timeout then SelectResult.received v else SelectResult.timedOut
    | none => SelectResult.timedOut

/-- The payload Request emits: the caller payload with the response
channel merged under the reserved key (environment file, Request). -/
def requestPayload (payload : Payload ⊕ PValue) (chanId : Nat) : Payload :=
  (NewPayload payload).Apply [(ResponseChanPayload, PValue.chan chanId)]

/-- environment.Request: build a single-capacity response channel, merge
it into the payload under the reserved key, emit the event via EmitNew,
and wait for the response or the timeout.  An emission error returns
immediately; a timeout yields the Timeout error; a received error value
is surfaced as the error; any other received value is the result
(environment file, Request).  chanId names the fresh channel; chanAtEntry
and laterSend describe the channel behavior as in selectOutcome. -/
def Request (env : EnvironmentData) (id topic : String)
    (payload : Payload ⊕ PValue) (scn : Scene) (timeout : Nat) (chanId : Nat)
    (chanAtEntry : Option PValue) (laterSend : Option (Nat × PValue)) :
    Except CellError PValue :=
  let p := requestPayload payload chanId
  match NewEvent topic (Sum.inl p) scn with
  | Except.error e => Except.error e
  | Except.ok ev =>
    match envEmitEvent env id ev with
    | some e => Except.error e
    | none =>
      match selectOutcome chanAtEntry laterSend timeout with
      | SelectResult.received v =>
        match v with
        | PValue.err e => Except.error e
        | v2 => Except.ok v2
      | SelectResult.timedOut =>
        Except.error (CellError.timeout ("requesting " ++ topic ++ " from " ++ id))

/-- The event Request emits for a given topic, payload, scene and channel:
topic plus the payload with the response channel merged in. -/
def requestEvent (topic : String) (payload : Payload ⊕ PValue) (scn : Scene)
    (chanId : Nat) : Event :=
  { topic := topic, payload := requestPayload payload chanId, scene := scn }

/-- Concrete event used by witnesses. -/
def wEvent : Event := { topic := "ping", payload := [], scene := none }

/-- Concrete empty queue with room for four events. -/
def wQueue : EventQueue := { capacity := 4, buffer := [], stopped := false }

/-- Concrete healthy cell. -/
def wCell : CellData := { id := "svc", queue := wQueue }

/-- Concrete cell whose queue is saturated, so every push fails. -/
def wFullCell : CellData :=
  { id := "full", queue := { capacity := 0, buffer := [], stopped := false } }

/-- Concrete behavior whose operations all succeed. -/
def wBehaviorOK : Behavior :=
  { initResult := none
    processEventResult := fun _ => none
    recoverResult := fun _ => none
    terminateResult := none }

/-- Concrete behavior whose Init fails. -/
def wBehaviorBadInit : Behavior :=
  { initResult := some (CellError.behaviorError "boom")
    processEventResult := fun _ => none
    recoverResult := fun _ => none
    terminateResult := none }

/-- Twelve recoverings within one minute. -/
def wRecs12 : List Recovering :=
  (List.range 12).map (fun i => { time := i, reason := "panic" })

/-- A single recovering. -/
def wRec1 : List Recovering := [{ time := 0, reason := "panic" }]

/-- Concrete environment holding one healthy cell under id svc. -/
def wEnv : EnvironmentData :=
  { id := "env"
    cells := { entries := [("svc", wCell)] }
    monitor := Monitoring.null
    finalizerSet := true }

/-- Concrete environment holding no cells. -/
def wEnvEmpty : EnvironmentData :=
  { id := "env", cells := newRegistry, monitor := Monitoring.null, finalizerSet := true }

/-- Claim C2: when the recovering history records 12 or more recoverings within
the last minute, checkRecovering returns the terminal RecoveredTooOften
error (carrying the last panic reason), and the supervisor stops the cell
with that error. -/
theorem checkRecovering_recoveredTooOften (b : Behavior) (rs : List Recovering)
    (h : recFrequency rs 12 60 = true) :
    checkRecovering b rs =
        Except.error (CellError.recoveredTooOften (recLastReason rs)) ∧
      superviseRecover b rs =
        SupervisorOutcome.stoppedWith (CellError.recoveredTooOften (recLastReason rs)) := by
  refine ⟨?_, ?_⟩ <;> simp [superviseRecover, checkRecovering, h]

/-- Witness for C2 at a history of twelve recoverings in one minute. -/
theorem checkRecovering_recoveredTooOften_witness :
    checkRecovering wBehaviorOK wRecs12 =
        Except.error (CellError.recoveredTooOften (recLastReason wRecs12)) ∧
      superviseRecover wBehaviorOK wRecs12 =
        SupervisorOutcome.stoppedWith (CellError.recoveredTooOften (recLastReason wRecs12)) :=
  checkRecovering_recoveredTooOften wBehaviorOK wRecs12 (by decide)

/-- Claim C5: with fewer than 12 recoverings in the last minute, checkRecovering
consults behavior.Recover on the last panic reason; a Recover error
yields a terminal EventRecovering error wrapping it, success yields the
history trimmed to its most recent 12 entries. -/
theorem checkRecovering_recover (b : Behavior) (rs : List Recovering)
    (h : recFrequency rs 12 60 = false) :
    (∀ e, b.recoverResult (recLastReason rs) = some e →
        checkRecovering b rs =
          Except.error (CellError.eventRecovering (recLastReason rs) e)) ∧
      (b.recoverResult (recLastReason rs) = none →
        checkRecovering b rs = Except.ok (recTrim rs 12)) := by
  constructor
  · intro e he
    simp [checkRecovering, h, he]
  · intro he
    simp [checkRecovering, h, he]

/-- Witness for C5 at a single recovering and an always-succeeding
Recover. -/
theorem checkRecovering_recover_witness :
    checkRecovering wBehaviorOK wRec1 = Except.ok (recTrim wRec1 12) :=
  (checkRecovering_recover wBehaviorOK wRec1 (by decide)).2 rfl

/-- Claim C9: NewEnvironment with no id parts takes the freshly generated UUID
as its id, with parts it takes their join; the registry starts fresh and
monitoring defaults to the null implementation. -/
theorem NewEnvironment_spec (uuid : String) (idParts : List String) :
    (idParts = [] → (NewEnvironment uuid idParts).id = uuid) ∧
      (idParts ≠ [] → (NewEnvironment uuid idParts).id = identifierJoin idParts) ∧
      (NewEnvironment uuid idParts).cells = newRegistry ∧
      (NewEnvironment uuid idParts).monitor = Monitoring.null := by
  refine ⟨?_, ?_, rfl, rfl⟩
  · intro h
    simp [NewEnvironment, h]
  · intro h
    simp [NewEnvironment, List.isEmpty_iff, h]

/-- Witness for C9 at two concrete id-part lists. -/
theorem NewEnvironment_spec_witness :
    (NewEnvironment "u" []).id = "u" ∧
      (NewEnvironment "u" ["a", "b"]).id = identifierJoin ["a", "b"] ∧
      (NewEnvironment "u" ["a", "b"]).cells = newRegistry ∧
      (NewEnvironment "u" ["a", "b"]).monitor = Monitoring.null :=
  ⟨(NewEnvironment_spec "u" []).1 rfl,
    (NewEnvironment_spec "u" ["a", "b"]).2.1 (by decide),
    (NewEnvironment_spec "u" ["a", "b"]).2.2.1,
    (NewEnvironment_spec "u" ["a", "b"]).2.2.2⟩

/-- Claim C10: environment.Stop clears the teardown finalizer before stopping
the registry: the finalizer is removed on every path, and a registry
stop error is propagated to the caller. -/
theorem envStop_clearsFinalizer (env : EnvironmentData) (r : Option CellError) :
    (envStop env r).1.finalizerSet = false ∧ (envStop env r).2 = r := by
  cases r <;> simp [envStop]

/-- Claim C3: Emit forwards the event to each current subscriber in order; when
every push succeeds the result is the updated subscriber list and a nil
error, and when the first failing subscriber is reached, Emit returns
the error of that subscriber and the subscribers after it are left untouched
(they do not receive the event). -/
theorem cellEmit_firstFailure (e : Event) :
    (∀ subs : List CellData,
        (∀ c ∈ subs, ∀ err, c.processEvent e ≠ Except.error err) →
        cellEmit subs e = (subs.map (fun c => c.afterPush e), none)) ∧
      (∀ (pre : List CellData) (bad : CellData) (post : List CellData)
          (err : CellError),
        (∀ c ∈ pre, ∀ e2, c.processEvent e ≠ Except.error e2) →
        bad.processEvent e = Except.error err →
        cellEmit (pre ++ bad :: post) e =
          (pre.map (fun c => c.afterPush e) ++ bad :: post, some err)) := by
  constructor
  · intro subs
    induction subs with
    | nil => intro _; rfl
    | cons c rest ih =>
      intro h
      cases hc : c.processEvent e with
      | error err => exact absurd hc (h c (List.mem_cons_self c rest) err)
      | ok c2 =>
        have hrest := ih (fun d hd err => h d (List.mem_cons_of_mem c hd) err)
        simp [cellEmit, hc, hrest, CellData.afterPush]
  · intro pre
    induction pre with
    | nil =>
      intro bad post err _ hbad
      simp [cellEmit, hbad]
    | cons c rest ih =>
      intro bad post err h hbad
      cases hc : c.processEvent e with
      | error e2 => exact absurd hc (h c (List.mem_cons_self c rest) e2)
      | ok c2 =>
        have hrest := ih bad post err (fun d hd e2 => h d (List.mem_cons_of_mem c hd) e2) hbad
        simp [cellEmit, hc, hrest, CellData.afterPush]

/-- Witness for C3: one healthy subscriber followed by a saturated one
followed by another; the saturated queue fails with QueueFull and the
queue of the trailing subscriber stays untouched. -/
theorem cellEmit_firstFailure_witness :
    cellEmit [wCell, wFullCell, wCell] wEvent =
      ([wCell].map (fun c => c.afterPush wEvent) ++ wFullCell :: [wCell],
        some CellError.queueFull) :=
  (cellEmit_firstFailure wEvent).2 [wCell] wFullCell [wCell] CellError.queueFull
    (by
      intro c hc e2
      simp only [List.mem_singleton] at hc
      subst hc
      simp [CellData.processEvent, wCell, wQueue, EventQueue.Push, wEvent])
    rfl

/-- Claim C1: when the backend loop dequeues an event it begins a measuring
span and invokes behavior.ProcessEvent; on a non-nil error the loop is
killed with that error and the only remaining action is the Terminate of
the stop branch — no further event is processed; on a nil error the
measuring span is ended and the loop continues with the rest of the
schedule. -/
theorem backendLoop_event (pe : Event → Option CellError) (term : Option CellError)
    (mid : String) (e : Event) (rest : List LoopMsg) (st : LoopState)
    (h : st.killed = none) :
    (∀ err, pe e = some err →
        backendLoop pe term mid (LoopMsg.event e :: rest) st =
          ({ st with killed := some err }, LoopExit.terminated term,
            [Action.beginMeasuring mid, Action.processEvent e, Action.kill err,
              Action.terminate])) ∧
      (pe e = none →
        backendLoop pe term mid (LoopMsg.event e :: rest) st =
          ((backendLoop pe term mid rest st).1,
            (backendLoop pe term mid rest st).2.1,
            Action.beginMeasuring mid :: Action.processEvent e ::
              Action.endMeasuring mid :: (backendLoop pe term mid rest st).2.2)) := by
  constructor
  · intro err herr
    rw [backendLoop.eq_def]
    simp only [h, Option.isSome_none, Bool.false_eq_true, if_false, herr]
    rw [backendLoop.eq_def]
    simp
  · intro herr
    rw [backendLoop.eq_def]
    simp [h, herr]

/-- Witness for C1: a behavior that fails on the witness event, with one
more event queued behind it; the loop is killed and that second event is
never processed. -/
theorem backendLoop_event_witness :
    backendLoop (fun _ => some CellError.queueFull) none "m"
        [LoopMsg.event wEvent, LoopMsg.event wEvent]
        { subscribers := [], killed := none } =
      ({ subscribers := [], killed := some CellError.queueFull },
        LoopExit.terminated none,
        [Action.beginMeasuring "m", Action.processEvent wEvent,
          Action.kill CellError.queueFull, Action.terminate]) :=
  (backendLoop_event (fun _ => some CellError.queueFull) none "m" wEvent
      [LoopMsg.event wEvent] { subscribers := [], killed := none } rfl).1
    CellError.queueFull rfl

/-- Lookup finds the appended binding when no earlier entry uses the key. -/
theorem lookup_append_single (l : List (String × PValue)) (k : String) (v : PValue)
    (h : ∀ kv ∈ l, kv.1 ≠ k) : (l ++ [(k, v)]).lookup k = some v := by
  induction l with
  | nil => simp [List.lookup]
  | cons kv rest ih =>
    have hk : kv.1 ≠ k := h kv (List.mem_cons_self kv rest)
    have hbeq : (k == kv.1) = false := by
      simp [beq_eq_false_iff_ne]
      exact fun hkk => hk hkk.symm
    simp only [List.cons_append, List.lookup, hbeq]
    exact ih (fun kv2 h2 => h kv2 (List.mem_cons_of_mem kv h2))

/-- The payload built by Request carries the response channel under the
reserved key. -/
theorem requestPayload_lookup (payload : Payload ⊕ PValue) (chanId : Nat) :
    (requestPayload payload chanId).lookup ResponseChanPayload =
      some (PValue.chan chanId) := by
  unfold requestPayload Payload.Apply
  apply lookup_append_single
  intro kv hmem hk
  have hcond := (List.mem_filter.mp hmem).2
  rw [hk] at hcond
  simp [List.lookup] at hcond

/-- Request unfolded past event construction and emission, for a non-empty
topic: an emission error is returned directly, otherwise the select
outcome decides between the received value (errors surfaced) and the
Timeout error. -/
theorem Request_reduce (env : EnvironmentData) (id topic : String)
    (payload : Payload ⊕ PValue) (scn : Scene) (timeout chanId : Nat)
    (chanAtEntry : Option PValue) (laterSend : Option (Nat × PValue))
    (htopic : topic ≠ "") :
    Request env id topic payload scn timeout chanId chanAtEntry laterSend =
      (match envEmitEvent env id (requestEvent topic payload scn chanId) with
      | some e => Except.error e
      | none =>
        match selectOutcome chanAtEntry laterSend timeout with
        | SelectResult.received (PValue.err e) => Except.error e
        | SelectResult.received v => Except.ok v
        | SelectResult.timedOut =>
          Except.error
            (CellError.timeout ("requesting " ++ topic ++ " from " ++ id))) := by
  have hev : NewEvent topic (Sum.inl (requestPayload payload chanId)) scn =
      Except.ok (requestEvent topic payload scn chanId) := by
    simp [NewEvent, NewPayload, requestEvent, htopic]
  simp only [Request, hev]
  cases envEmitEvent env id (requestEvent topic payload scn chanId) with
  | some e => rfl
  | none =>
    cases selectOutcome chanAtEntry laterSend timeout with
    | timedOut => rfl
    | received v => cases v <;> rfl

/-- Claim C6: when behavior.Init fails during cell creation, newCell aborts the
start with a CellInit error wrapping the Init error and yields no cell;
the behavior sees exactly the one Init call and in particular no
ProcessEvent call. -/
theorem newCell_initFailure (q : EventQueue) (id : String) (b : Behavior)
    (e : CellError) (h : b.initResult = some e) :
    (newCell (Except.ok q) id b).1 = Except.error (CellError.cellInit id e) ∧
      (newCell (Except.ok q) id b).2 = [BCall.init] ∧
      ∀ ev, BCall.processEvent ev ∉ (newCell (Except.ok q) id b).2 := by
  refine ⟨?_, ?_, ?_⟩ <;> simp [newCell, h]

/-- Witness for C6 at a behavior whose Init fails. -/
theorem newCell_initFailure_witness :
    (newCell (Except.ok wQueue) "c" wBehaviorBadInit).1 =
        Except.error (CellError.cellInit "c" (CellError.behaviorError "boom")) ∧
      (newCell (Except.ok wQueue) "c" wBehaviorBadInit).2 = [BCall.init] ∧
      ∀ ev, BCall.processEvent ev ∉ (newCell (Except.ok wQueue) "c" wBehaviorBadInit).2 :=
  newCell_initFailure wQueue "c" wBehaviorBadInit (CellError.behaviorError "boom") rfl

/-- Claim C8: when emitting the request event fails — the cell is missing or
its queue rejects the push — Request returns that emission error at once,
for every timeout and every response-channel behavior. -/
theorem Request_emitFailure (env : EnvironmentData) (id topic : String)
    (payload : Payload ⊕ PValue) (scn : Scene) (timeout chanId : Nat)
    (chanAtEntry : Option PValue) (laterSend : Option (Nat × PValue)) (e : CellError)
    (htopic : topic ≠ "")
    (hemit : envEmitEvent env id (requestEvent topic payload scn chanId) = some e) :
    Request env id topic payload scn timeout chanId chanAtEntry laterSend =
      Except.error e := by
  rw [Request_reduce env id topic payload scn timeout chanId chanAtEntry laterSend
    htopic, hemit]

/-- Witness for C8: requesting from a cell id absent from the registry
returns CellNotFound immediately. -/
theorem Request_emitFailure_witness :
    Request wEnvEmpty "nope" "t" (Sum.inr (PValue.num 1)) none 5 0 none none =
      Except.error (CellError.cellNotFound "nope") :=
  Request_emitFailure wEnvEmpty "nope" "t" (Sum.inr (PValue.num 1)) none 5 0
    none none (CellError.cellNotFound "nope") (by decide) rfl

/-- Claim C4: Request merges the capacity-one response channel into the payload
under the reserved key and emits the event; then, if the timer fires
first the result is the Timeout error, a received error value is returned
as the error, and any other received value is returned as the value. -/
theorem Request_responseHandling (env : EnvironmentData) (id topic : String)
    (payload : Payload ⊕ PValue) (scn : Scene) (timeout chanId : Nat)
    (chanAtEntry : Option PValue) (laterSend : Option (Nat × PValue))
    (htopic : topic ≠ "")
    (hemit : envEmitEvent env id (requestEvent topic payload scn chanId) = none) :
    (requestEvent topic payload scn chanId).payload.lookup ResponseChanPayload =
        some (PValue.chan chanId) ∧
      (selectOutcome chanAtEntry laterSend timeout = SelectResult.timedOut →
        Request env id topic payload scn timeout chanId chanAtEntry laterSend =
          Except.error
            (CellError.timeout ("requesting " ++ topic ++ " from " ++ id))) ∧
      (∀ e, selectOutcome chanAtEntry laterSend timeout =
          SelectResult.received (PValue.err e) →
        Request env id topic payload scn timeout chanId chanAtEntry laterSend =
          Except.error e) ∧
      (∀ v, selectOutcome chanAtEntry laterSend timeout = SelectResult.received v →
        (∀ e, v ≠ PValue.err e) →
        Request env id topic payload scn timeout chanId chanAtEntry laterSend =
          Except.ok v) := by
  refine ⟨requestPayload_lookup payload chanId, ?_, ?_, ?_⟩
  · intro hsel
    rw [Request_reduce env id topic payload scn timeout chanId chanAtEntry laterSend
      htopic, hemit, hsel]
  · intro e hsel
    rw [Request_reduce env id topic payload scn timeout chanId chanAtEntry laterSend
      htopic, hemit, hsel]
  · intro v hsel hv
    rw [Request_reduce env id topic payload scn timeout chanId chanAtEntry laterSend
      htopic, hemit, hsel]
    cases v with
    | err e => exact absurd rfl (hv e)
    | str s => rfl
    | num n => rfl
    | chan c => rfl

/-- Witness for C4: a request against the svc cell whose response channel
already holds the value 49 yields 49, and the emitted payload carries the
channel under the reserved key. -/
theorem Request_responseHandling_witness :
    (requestEvent "square" (Sum.inr (PValue.num 7)) none 0).payload.lookup
        ResponseChanPayload = some (PValue.chan 0) ∧
      Request wEnv "svc" "square" (Sum.inr (PValue.num 7)) none 5 0
          (some (PValue.num 49)) none = Except.ok (PValue.num 49) :=
  ⟨(Request_responseHandling wEnv "svc" "square" (Sum.inr (PValue.num 7)) none 5 0
      (some (PValue.num 49)) none (by decide) rfl).1,
    (Request_responseHandling wEnv "svc" "square" (Sum.inr (PValue.num 7)) none 5 0
        (some (PValue.num 49)) none (by decide) rfl).2.2.2 (PValue.num 49) rfl
      (by intro e h; cases h)⟩

/-- Claim C7: with timeout 0 — assuming any response sent only after the select
begins arrives at a positive time — a successful Request implies the
response was already buffered in the channel at entry; with an empty
channel the result is the Timeout error. -/
theorem Request_zeroTimeout (env : EnvironmentData) (id topic : String)
    (payload : Payload ⊕ PValue) (scn : Scene) (chanId : Nat)
    (chanAtEntry : Option PValue) (laterSend : Option (Nat × PValue))
    (hlater : ∀ t v, laterSend = some (t, v) → 0 < t) :
    (∀ v, Request env id topic payload scn 0 chanId chanAtEntry laterSend =
        Except.ok v → chanAtEntry = some v) ∧
      (chanAtEntry = none → topic ≠ "" →
        envEmitEvent env id (requestEvent topic payload scn chanId) = none →
        Request env id topic payload scn 0 chanId chanAtEntry laterSend =
          Except.error
            (CellError.timeout ("requesting " ++ topic ++ " from " ++ id))) := by
  have hsel0 : chanAtEntry = none →
      selectOutcome chanAtEntry laterSend 0 = SelectResult.timedOut := by
    intro hc
    subst hc
    cases hl : laterSend with
    | none => rfl
    | some tv =>
      have hpos := hlater tv.1 tv.2 (by rw [hl])
      simp [selectOutcome, Nat.le_zero]
      omega
  constructor
  · intro v hv
    by_cases htopic : topic = ""
    · simp [Request, NewEvent, htopic] at hv
    · rw [Request_reduce env id topic payload scn 0 chanId chanAtEntry laterSend
        htopic] at hv
      cases hem : envEmitEvent env id (requestEvent topic payload scn chanId) with
      | some e => rw [hem] at hv; simp at hv
      | none =>
        rw [hem] at hv
        cases hc : chanAtEntry with
        | none => rw [hsel0 hc] at hv; simp at hv
        | some w =>
          have hrecv : selectOutcome chanAtEntry laterSend 0 =
              SelectResult.received w := by
            rw [hc]; rfl
          rw [hrecv] at hv
          cases w with
          | err e => simp at hv
          | str s => simp at hv; subst hv; rfl
          | num n => simp at hv; subst hv; rfl
          | chan c => simp at hv; subst hv; rfl
  · intro hc htopic hemit
    rw [Request_reduce env id topic payload scn 0 chanId chanAtEntry laterSend
      htopic, hemit, hsel0 hc]

/-- Witness for C7: timeout 0 against the svc cell with an empty response
channel and no later send yields the Timeout error. -/
theorem Request_zeroTimeout_witness :
    Request wEnv "svc" "square" (Sum.inr (PValue.num 7)) none 0 0 none none =
      Except.error (CellError.timeout ("requesting " ++ "square" ++ " from " ++ "svc")) :=
  (Request_zeroTimeout wEnv "svc" "square" (Sum.inr (PValue.num 7)) none 0 none none
      (by intro t v h; cases h)).2 rfl (by decide) rfl

end Cells
